import Mathlib

/-
Verification development for the TetraCycle Arduino/Firebase bridge
(tetracycle_firebase_bridge.py). The Python program is shallowly embedded:
Python dict values are modelled by the inductive `PyVal`, the shared
`current_status` dict by the structure `Status`, a decoded JSON frame by an
association list `Frame`, the serial port by `SerialState` (explicit state
passing), and each stateful function of the source by a pure Lean function
over these types. Fallible Python code (exceptions) is modelled with
`Option`/result flags, and the decoder's `while` loop with explicit fuel
(`Option.none` result = the loop did not terminate within the given fuel;
a result of `none` for every fuel is genuine nontermination).
-/

/-- A Python runtime value, restricted to the shapes that flow through the
bridge: integers, booleans, strings, `None`, and (possibly nested) lists. -/
inductive PyVal where
  | int (n : Int)
  | bool (b : Bool)
  | str (s : String)
  | none_
  | list (l : List PyVal)

/-- Python truthiness (`bool(v)`) for the modelled values: nonzero integers,
`True`, non-empty strings and non-empty lists are truthy; `0`, `False`,
`""`, `None` and `[]` are falsy. -/
def PyVal.truthy : PyVal → Bool
  | .int n => n != 0
  | .bool b => b
  | .str s => s != ""
  | .none_ => false
  | .list l => !l.isEmpty

/-- The actuator coercion `1 if v else 0` used at source lines 113, 121
(update_status) and 143 (send_command_to_arduino). -/
def coerce01 (v : PyVal) : Int :=
  if v.truthy = true then 1 else 0

/-- Accumulate a decimal value over a character run; `Option.none` as soon
as a non-digit appears. Empty input returns the accumulator (callers ensure
at least one digit was seen). -/
def digitsToNatAux : List Char → Nat → Option Nat
  | [], acc => some acc
  | c :: cs, acc =>
    if c.isDigit then digitsToNatAux cs (acc * 10 + (c.toNat - '0'.toNat))
    else Option.none

/-- Python's `int(s)` on a string: an optional sign followed by at least
one decimal digit; anything else raises (`Option.none`). -/
def pyStrToInt (s : String) : Option Int :=
  match s.toList with
  | [] => Option.none
  | '-' :: cs =>
    match cs with
    | [] => Option.none
    | _ => (digitsToNatAux cs 0).map (fun n => -(n : Int))
  | '+' :: cs =>
    match cs with
    | [] => Option.none
    | _ => (digitsToNatAux cs 0).map (fun n => (n : Int))
  | cs => (digitsToNatAux cs 0).map (fun n => (n : Int))

/-- Python's `int(v)` builtin on the modelled values: identity on ints,
0/1 on bools, decimal parsing on strings; `None` and lists raise
(modelled as `Option.none`). -/
def pyInt (v : PyVal) : Option Int :=
  match v with
  | .int n => some n
  | .bool b => some (if b then 1 else 0)
  | .str s => pyStrToInt s
  | .none_ => Option.none
  | .list _ => Option.none

/-- The Reconciler's coercion, source lines 602-607 of
process_control_values: `None` maps to 0 (line 604); otherwise
`value = 1 if int(current_values[key]) else 0` (line 607), where `int()`
may raise (`Option.none` = the ValueError/TypeError branch at 615). -/
def reconCoerce (v : PyVal) : Option Int :=
  match v with
  | .none_ => some 0
  | _ => (pyInt v).map (fun n => if n = 0 then 0 else 1)

/-- A decoded JSON frame: an association list from keys to values (a JSON
object has distinct keys; lookups model Python's `key in data` / `data[key]`). -/
def Frame : Type := List (String × PyVal)

/-- The shared `current_status` dict (source lines 25-32). The `pumps` field
holds an arbitrary `PyVal` because `update_status` stores whatever the
`pumps` key of a frame carries, verbatim (line 105). -/
structure Status where
  ph : PyVal
  turbidity : PyVal
  tds : PyVal
  pumps : PyVal
  servo : PyVal
  system : PyVal

/-- Initial `current_status` (source lines 25-32). -/
def status0 : Status :=
  ⟨.int 0, .int 0, .int 0, .list [.int 0, .int 0], .int 0, .int 0⟩

/-- Python `current_status['pumps'][i] = x`: succeeds only when the stored
value is a list and `i` is in range; otherwise a TypeError/IndexError is
raised (`Option.none`). -/
def setPumpSlot (p : PyVal) (i : Nat) (x : PyVal) : Option PyVal :=
  match p with
  | .list l => if i < l.length then some (.list (l.set i x)) else Option.none
  | _ => Option.none

/-- Python `current_status['pumps'][i]` (read): a list lookup, raising
(`Option.none`) on a non-list value or an out-of-range index. -/
def pyIndex (p : PyVal) (i : Nat) : Option PyVal :=
  match p with
  | .list l => l.get? i
  | _ => Option.none

/-- Apply one optional field update (`if key in data: ... = data[key]`). -/
def applyField (st : Status) (v? : Option PyVal) (f : Status → PyVal → Status) : Status :=
  match v? with
  | some v => f st v
  | Option.none => st

/-- Tail of `update_status` after the pump1/pump2 slot writes: the `servo`
and `system` fields (source lines 124-128); cannot raise. -/
def update_status_done (st : Status) (data : Frame) : Status × Bool :=
  let st := applyField st (List.lookup "servo" data) (fun s v => { s with servo := v })
  let st := applyField st (List.lookup "system" data) (fun s v => { s with system := v })
  (st, true)

/-- The `pump2` part of `update_status` (source lines 116-122): writes slot 1
of the stored pumps value, coerced with `1 if data['pump2'] else 0`; a raise
aborts the remaining field updates (flag `false`). -/
def update_status_pump2 (st : Status) (data : Frame) : Status × Bool :=
  match List.lookup "pump2" data with
  | some v =>
    match setPumpSlot st.pumps 1 (PyVal.int (coerce01 v)) with
    | some p => update_status_done { st with pumps := p } data
    | Option.none => (st, false)
  | Option.none => update_status_done st data

/-- The `pump1` part of `update_status` (source lines 108-114): writes slot 0
of the stored pumps value, coerced with `1 if data['pump1'] else 0`; a raise
aborts the remaining field updates (flag `false`). -/
def update_status_pump1 (st : Status) (data : Frame) : Status × Bool :=
  match List.lookup "pump1" data with
  | some v =>
    match setPumpSlot st.pumps 0 (PyVal.int (coerce01 v)) with
    | some p => update_status_pump2 { st with pumps := p } data
    | Option.none => (st, false)
  | Option.none => update_status_pump2 st data

/-- `update_status(data)` (source lines 90-128). Field-by-field merge of a
decoded frame into the status: `ph`, `turbidity`, `tds` and a verbatim
`pumps` store (lines 94-105), then the `pump1`/`pump2` slot writes
(lines 108-122; these index into the stored pumps value and can raise —
the returned flag is `false` and later fields stay untouched, matching the
Python exception escaping mid-function), then `servo`/`system`. The source's
`if 'pumps' not in current_status` guards (lines 110, 118) never fire because
`current_status` always carries a `pumps` key, as encoded by the structure. -/
def update_status (st : Status) (data : Frame) : Status × Bool :=
  let st := applyField st (List.lookup "ph" data) (fun s v => { s with ph := v })
  let st := applyField st (List.lookup "turbidity" data) (fun s v => { s with turbidity := v })
  let st := applyField st (List.lookup "tds" data) (fun s v => { s with tds := v })
  let st := applyField st (List.lookup "pumps" data) (fun s v => { s with pumps := v })
  update_status_pump1 st data

/-- The per-second states display in the main loop (source line 528): reads
`current_status['pumps'][0]`, `['pumps'][1]`, `servo` and `system`; raises
(`Option.none`) when the stored pumps value cannot be indexed. -/
def statesDisplay (st : Status) : Option (PyVal × PyVal × PyVal × PyVal) := do
  let p0 ← pyIndex st.pumps 0
  let p1 ← pyIndex st.pumps 1
  pure (p0, p1, st.servo, st.system)

/-- The five-second mirror of confirmed actuator state into the remote
control document (source lines 536-543): builds the `control_updates` dict
from `current_status['pumps'][0]`, `['pumps'][1]`, `servo`, `system` and a
timestamp; raises (`Option.none`) when the pumps value cannot be indexed. -/
def controlMirror (st : Status) (now : String) : Option (List (String × PyVal)) := do
  let p0 ← pyIndex st.pumps 0
  let p1 ← pyIndex st.pumps 1
  pure [("pump1", p0), ("pump2", p1), ("servo", st.servo),
        ("system", st.system), ("last_updated", PyVal.str now)]

/-- The serial-port state visible to the embedded code: open flag, pending
input bytes (`in_waiting`), and the log of lines written so far. -/
structure SerialState where
  isOpen : Bool
  inWaiting : List Char
  written : List String

/-- The four recognized actuator keys (source line 141). -/
def recognizedKeys : List String := ["pump1", "pump2", "servo", "system"]

/-- `json.dumps(formatted_command) + '\n'` (source line 155): one JSON
object per line. -/
def serializeCommand (cmd : List (String × Int)) : String :=
  "\x7b" ++ String.intercalate ", "
      (cmd.map (fun e => "\"" ++ e.1 ++ "\": " ++ toString e.2)) ++ "\x7d\n"

/-- `send_command_to_arduino(ser, command)` (source lines 130-212).
Returns failure when the port is closed (line 134) or when no recognized
key survives the filter-and-coerce step (lines 139-149) — in both cases
before any stream access. Otherwise: drain pending input (lines 159-160),
write the serialized line (lines 163-164), then wait for an optional ack
frame (`resp`; real time is external, so the frame the 2-second poll would
deliver is a parameter) and merge it into the status (line 193). An
exception inside `update_status` is caught inside the wait loop (line 199)
after `response_received` was already set (line 190), so the call still
returns `True`; only the partially-updated status remains. -/
def send_command_to_arduino (ser : SerialState) (st : Status)
    (command : List (String × PyVal)) (resp : Option Frame) :
    Bool × SerialState × Status :=
  if ser.isOpen = false then (false, ser, st)
  else
    let formatted := command.filterMap
      (fun e => if e.1 ∈ recognizedKeys then some (e.1, coerce01 e.2) else Option.none)
    if formatted = [] then (false, ser, st)
    else
      let ser1 : SerialState := { ser with inWaiting := [] }
      let ser2 : SerialState := { ser1 with written := ser1.written ++ [serializeCommand formatted] }
      match resp with
      | some frame => (true, ser2, (update_status st frame).1)
      | Option.none => (true, ser2, st)

/-- The four actuator keys the Reconciler iterates over (source line 599). -/
inductive CKey where
  | pump1
  | pump2
  | servo
  | system
deriving DecidableEq

/-- The string name of an actuator key, as it appears in the control
document and in commands. -/
def CKey.name : CKey → String
  | .pump1 => "pump1"
  | .pump2 => "pump2"
  | .servo => "servo"
  | .system => "system"

/-- Iteration order of `for key in ['pump1', 'pump2', 'servo', 'system']`
(source line 599). -/
def controlKeys : List CKey := [.pump1, .pump2, .servo, .system]

/-- The persistent `process_control_values.previous_control` cache:
each key holds `None` (the unset sentinel) or a 0/1 integer. -/
def ControlCache : Type := CKey → Option Int

/-- Point update of the cache (`previous_control[key] = value`). -/
def updCache (c : ControlCache) (k : CKey) (v : Int) : ControlCache :=
  fun k' => if k' = k then some v else c k'

/-- The cache as first initialized (source lines 586-592): every key `None`. -/
def cacheUnset : ControlCache := fun _ => Option.none

/-- One iteration of the Reconciler's per-key loop (source lines 599-619),
acting on the pair (cache, command-so-far): if the key is absent from the
document, nothing happens; otherwise the value is coerced (lines 602-607)
and, when the cached value `is None or` differs (line 610), the cache is
updated immediately and the key is appended to the command (lines 611-612).
A coercion failure (line 615) only forces an unset cache entry to 0
(lines 618-619). -/
def pcvStep (doc : List (String × PyVal)) (acc : ControlCache × List (CKey × Int))
    (k : CKey) : ControlCache × List (CKey × Int) :=
  match List.lookup k.name doc with
  | Option.none => acc
  | some w =>
    match reconCoerce w with
    | some v =>
      if acc.1 k = Option.none ∨ acc.1 k ≠ some v then
        (updCache acc.1 k v, acc.2 ++ [(k, v)])
      else acc
    | Option.none =>
      (if acc.1 k = Option.none then updCache acc.1 k 0 else acc.1, acc.2)

/-- Python's `len(v)`: defined on sized values (strings, lists); raises
TypeError (`Option.none`) on the other modelled values. -/
def pyLen (v : PyVal) : Option Nat :=
  match v with
  | .str s => some s.length
  | .list l => some l.length
  | _ => Option.none

/-- The post-send status-verification block of `process_control_values`
(source lines 638-656): for each commanded key it builds a display entry.
For `pump1`/`pump2` the conditional at lines 644/648 evaluates
`len(current_status['pumps'])` (the first conjunct
`'pumps' in current_status` is always true), which raises on a non-sized
pumps value and aborts the rest of the function; when the length guard
passes, the `[0]`/`[1]` indexing is in range on the sized value and cannot
raise, and when it fails the entry is the string `"unknown"`.
`servo`/`system` use `.get` (line 651) and never raise. The display text is
only printed, so the model keeps just the raise/no-raise outcome. -/
def verify_block (st : Status) (cmd : List (CKey × Int)) : Option Unit :=
  match cmd with
  | [] => some ()
  | e :: rest =>
    match e.1 with
    | CKey.pump1 =>
      match pyLen st.pumps with
      | some _ => verify_block st rest
      | Option.none => Option.none
    | CKey.pump2 =>
      match pyLen st.pumps with
      | some _ => verify_block st rest
      | Option.none => Option.none
    | _ => verify_block st rest

/-- Everything one call of `process_control_values` produces. `raised` is
true when the verification block raised, so the exception escaped to the
caller (the main loop's handler at lines 567-568) before the control-store
update at line 667 could run. -/
structure ReconcileResult where
  previous : ControlCache
  command : List (CKey × Int)
  sendResult : Option Bool
  ser : SerialState
  status : Status
  controlUpdate : Option (List (String × PyVal))
  raised : Bool

/-- `process_control_values(ser, current_values)` (source lines 583-667).
Folds the per-key delta step over the four actuator keys, then — exactly
when the collected command is non-empty (`changed`, line 621) — sends it
through `send_command_to_arduino` (line 632), runs the status-verification
block of lines 638-656 on the post-send status, and afterwards, without
consulting the send result, updates the remote control document with
`last_updated` plus the commanded key/value pairs (lines 659-667) — unless
the verification block raised, in which case the exception propagates and
the update is skipped (`raised`). `doc` is the fetched control document,
`resp` the optional ack frame the serial wait would deliver, `now` the
timestamp string. -/
def process_control_values (prev : ControlCache) (ser : SerialState) (st : Status)
    (doc : List (String × PyVal)) (resp : Option Frame) (now : String) :
    ReconcileResult :=
  let acc := controlKeys.foldl (pcvStep doc) (prev, [])
  if acc.2 = [] then
    ⟨acc.1, acc.2, Option.none, ser, st, Option.none, false⟩
  else
    let r := send_command_to_arduino ser st
      (acc.2.map (fun e => (e.1.name, PyVal.int e.2))) resp
    match verify_block r.2.2 acc.2 with
    | some _ =>
      ⟨acc.1, acc.2, some r.1, r.2.1, r.2.2,
        some (("last_updated", PyVal.str now) ::
          acc.2.map (fun e => (e.1.name, PyVal.int e.2))), false⟩
    | Option.none =>
      ⟨acc.1, acc.2, some r.1, r.2.1, r.2.2, Option.none, true⟩

/-- The persistent decoder state of `read_and_upload_data`
(source lines 317-319): the accumulation buffer and the rolling
JSON-error counter. -/
structure DecoderState where
  buffer : List Char
  errorCount : Nat

/-- Python `s.find(c)` restricted to a character needle: index of the first
occurrence, or `Option.none` where Python returns -1. -/
def pyFindIdx : List Char → Char → Option Nat
  | [], _ => Option.none
  | a :: as, c => if a = c then some 0 else (pyFindIdx as c).map (fun i => i + 1)

/-- Python `s.find(c, start)`: first occurrence at or after `start`. -/
def pyFindFrom (buf : List Char) (c : Char) (start : Nat) : Option Nat :=
  (pyFindIdx (buf.drop start) c).map (fun i => start + i)

/-- Python `s.rfind(c)`: index of the last occurrence. -/
def pyRfindIdx : List Char → Char → Option Nat
  | [], _ => Option.none
  | a :: as, c =>
    match pyRfindIdx as c with
    | some j => some (j + 1)
    | Option.none => if a = c then some 0 else Option.none

/-- `buffer[buffer.rfind('\x7b'):]` (source lines 332, 379): keep from the
last open brace. When `rfind` returns -1 (no brace), Python's `buffer[-1:]`
keeps just the final character; both call sites are guarded so the brace
exists there. -/
def truncToLastOpen (buf : List Char) : List Char :=
  match pyRfindIdx buf '{' with
  | some i => buf.drop i
  | Option.none => buf.drop (buf.length - 1)

/-- The frame-extraction `while` loop of `read_and_upload_data`
(source lines 337-370), with explicit fuel; `Option.none` means the fuel ran
out before the loop finished (for every fuel: the loop never terminates).
Each pass takes the slice from the first open brace to the next close brace
(`find` returning -1 makes `end_idx` 0, so the slice is empty and the buffer
is left unchanged — the Python behaviour), drops the consumed prefix,
discards candidates shorter than 5 or longer than 500 characters (line 345),
and otherwise parses: success resets the error counter (line 351) and merges
the frame (line 354; an exception there is swallowed by the handler at
line 369); a JSON error increments the counter, and once it passes 10000 on
a multiple of 1000 the buffer is cleared and the loop broken
(lines 362-368). `parse` stands for the external `json.loads`. -/
def decode_loop (parse : List Char → Option Frame) :
    Nat → List Char → Nat → Status → Option (List Char × Nat × Status)
  | 0, _, _, _ => Option.none
  | Nat.succ fuel, buf, errs, st =>
    if ('{' ∈ buf) ∧ ('}' ∈ buf) then
      let start := (pyFindIdx buf '{').getD 0
      let endIdx := match pyFindFrom buf '}' start with
        | some j => j + 1
        | Option.none => 0
      let json := (buf.take endIdx).drop start
      let buf' := buf.drop endIdx
      if json.length < 5 ∨ 500 < json.length then
        decode_loop parse fuel buf' errs st
      else
        match parse json with
        | some frame => decode_loop parse fuel buf' 0 (update_status st frame).1
        | Option.none =>
          let errs' := errs + 1
          if errs' % 1000 = 0 ∧ 10000 < errs' then some ([], errs', st)
          else decode_loop parse fuel buf' errs' st
    else some (buf, errs, st)

/-- One call of the serial-read part of `read_and_upload_data`
(source lines 321-379) on a freshly read chunk: append the chunk to the
persistent buffer (line 327); if the buffer holds an open brace with no
close brace and exceeds 100 characters, truncate to the last open brace,
clear entirely if still over 100, and return early (lines 330-335);
otherwise run the extraction loop and finally apply the oversize cleanup
(lines 373-379: over 500 characters, the buffer is cleared when it lacks a
brace pair, else truncated to the last open brace). `Option.none` propagates
loop nontermination. -/
def read_chunk (parse : List Char → Option Frame) (fuel : Nat)
    (ds : DecoderState) (st : Status) (chunk : List Char) :
    Option (DecoderState × Status) :=
  let buf := ds.buffer ++ chunk
  if ('{' ∈ buf) ∧ ('}' ∉ buf) ∧ 100 < buf.length then
    let b1 := truncToLastOpen buf
    let b2 := if 100 < b1.length then ([] : List Char) else b1
    some (⟨b2, ds.errorCount⟩, st)
  else
    match decode_loop parse fuel buf ds.errorCount st with
    | Option.none => Option.none
    | some (buf', errs', st') =>
      let bufF :=
        if 500 < buf'.length then
          if ('{' ∉ buf') ∨ ('}' ∉ buf') then ([] : List Char)
          else truncToLastOpen buf'
        else buf'
      some (⟨bufF, errs'⟩, st')

/-- The reset guard of the main loop (source line 497):
`serial_errors > 100 and current_time - last_reset_time > 60`. -/
def reset_check (serialErrors : Nat) (currentTime lastResetTime : Int) : Bool :=
  decide (100 < serialErrors) && decide (60 < currentTime - lastResetTime)

/-- The main-loop state relevant to serial-error recovery
(source lines 485-486), plus a counter of how many times the reset action
has fired. -/
structure MainState where
  serialErrors : Nat
  lastResetTime : Int
  resets : Nat

/-- One pass of the main loop's recovery-relevant steps
(source lines 493-554): if the guard holds, `reset_serial_port` fires
(`resets` counts the firings); on success the error counter is zeroed and
the reset time stamped (lines 500-501), on failure both are left alone; then
a failing serial read increments the error counter (line 553). -/
def main_iteration (s : MainState) (currentTime : Int)
    (resetSucceeds readFails : Bool) : MainState :=
  let s1 :=
    if reset_check s.serialErrors currentTime s.lastResetTime then
      if resetSucceeds then
        { serialErrors := 0, lastResetTime := currentTime, resets := s.resets + 1 }
      else { s with resets := s.resets + 1 }
    else s
  if readFails then { s1 with serialErrors := s1.serialErrors + 1 } else s1

/-- A run of consecutive failing reads at the given times, with resets
always succeeding when attempted. -/
def run_failures (s : MainState) (times : List Int) : MainState :=
  times.foldl (fun s t => main_iteration s t true true) s

/-- A serial port that is open with nothing pending. -/
def serOpen : SerialState := ⟨true, [], []⟩

/-- A serial port that is closed (`ser.is_open` false). -/
def serClosed : SerialState := ⟨false, [], []⟩

/-- A last-forwarded cache holding 0 for every key. -/
def cacheZero : ControlCache := fun _ => some 0

/-- The remote control document of the delta-forwarding example:
pump1 commanded on, everything else 0. -/
def docDelta : List (String × PyVal) :=
  [("pump1", PyVal.int 1), ("pump2", PyVal.int 0),
   ("servo", PyVal.int 0), ("system", PyVal.int 0)]

/-- A frame holding only a stray `}` leaves the decoder buffer equal to
that text (reachable prior state for the nontermination scenario). -/
def strayCloseBuf : List Char := ['a', 'b', 'c', '}']

/-- The combined buffer of the nontermination scenario: the stray tail
`abc\x7d` followed by open braces; parameterized by how many open braces
follow the first one. -/
def stuckBuf (n : Nat) : List Char :=
  'a' :: 'b' :: 'c' :: '}' :: '{' :: List.replicate n '{'

/-- `command.filterMap` over only-unrecognized keys yields the empty
formatted command (source lines 139-144). -/
theorem filterMap_unrecognized_nil (command : List (String × PyVal))
    (h : ∀ e ∈ command, e.1 ∉ recognizedKeys) :
    command.filterMap
      (fun e => if e.1 ∈ recognizedKeys then some (e.1, coerce01 e.2) else Option.none)
      = [] := by
  induction command with
  | nil => rfl
  | cons a t ih =>
    have ha : a.1 ∉ recognizedKeys := h a (List.mem_cons_self a t)
    rw [List.filterMap_cons, if_neg ha]
    exact ih (fun e he => h e (List.mem_cons_of_mem a he))

/-- C1 counterexample: a cycle in which the delta command `pump1 := 1` is
non-empty but the serial port is closed, so the Command Channel send
reports failure — yet `process_control_values` still performs the remote
control-document update. This refutes the claim that the write-back is
performed only when the send reports success. -/
theorem c1_counterexample :
    (process_control_values cacheZero serClosed status0 [("pump1", PyVal.int 1)]
        Option.none "2024-01-01 00:00:00").sendResult = some false
    ∧ ((process_control_values cacheZero serClosed status0 [("pump1", PyVal.int 1)]
        Option.none "2024-01-01 00:00:00").controlUpdate).isSome = true :=
  ⟨rfl, rfl⟩

/-- Full characterization of when the Reconciler performs the remote
control-document update: exactly on a non-empty command whose post-send
verification block did not raise; the send result plays no part. -/
theorem process_controlUpdate_spec (prev : ControlCache) (ser : SerialState)
    (st : Status) (doc : List (String × PyVal)) (resp : Option Frame)
    (now : String) :
    (process_control_values prev ser st doc resp now).controlUpdate
      = (if ((process_control_values prev ser st doc resp now).command ≠ []
             ∧ (process_control_values prev ser st doc resp now).raised = false)
         then some (("last_updated", PyVal.str now) ::
           (process_control_values prev ser st doc resp now).command.map
             (fun e => (e.1.name, PyVal.int e.2)))
         else Option.none) := by
  simp only [process_control_values]
  split
  · rename_i h
    simp [h]
  · rename_i hnil
    split
    · simp [hnil]
    · simp

/-- C1 (amended): in a Reconciler cycle where a non-empty delta command is
forwarded and the post-send verification block (source lines 638-656) does
not raise, the confirmation write-back (`last_updated` together with the
commanded key values) is performed regardless of whether the Command
Channel send reports success or failure — a send failure alone never
suppresses the write-back. -/
theorem c1_amended (prev : ControlCache) (ser : SerialState) (st : Status)
    (doc : List (String × PyVal)) (resp : Option Frame) (now : String)
    (hcmd : (process_control_values prev ser st doc resp now).command ≠ [])
    (hok : (process_control_values prev ser st doc resp now).raised = false) :
    (process_control_values prev ser st doc resp now).controlUpdate
      = some (("last_updated", PyVal.str now) ::
        (process_control_values prev ser st doc resp now).command.map
          (fun e => (e.1.name, PyVal.int e.2))) := by
  rw [process_controlUpdate_spec prev ser st doc resp now, if_pos ⟨hcmd, hok⟩]

/-- C1 witness: the closed-port cycle — the send reports failure, yet the
write-back is performed. -/
theorem c1_amended_witness :
    (process_control_values cacheZero serClosed status0 [("pump1", PyVal.int 1)]
        Option.none "2024-01-01 00:00:00").controlUpdate
      = some (("last_updated", PyVal.str "2024-01-01 00:00:00") ::
        (process_control_values cacheZero serClosed status0 [("pump1", PyVal.int 1)]
          Option.none "2024-01-01 00:00:00").command.map
          (fun e => (e.1.name, PyVal.int e.2))) :=
  c1_amended cacheZero serClosed status0 [("pump1", PyVal.int 1)] Option.none
    "2024-01-01 00:00:00" (by decide) rfl

/-- C3: with the last-forwarded cache all unset (`None`) and remote control
document `pump1 = 0`, the Reconciler forwards exactly the command
`pump1 := 0` (the sentinel differs from 0), the cache then holds 0 for
pump1, and a second cycle with the identical document forwards nothing:
no command, no send, no remote update. -/
theorem c3_unset_triggers_send :
    (process_control_values cacheUnset serOpen status0 [("pump1", PyVal.int 0)]
        Option.none "t1").command = [(CKey.pump1, 0)]
    ∧ (process_control_values cacheUnset serOpen status0 [("pump1", PyVal.int 0)]
        Option.none "t1").previous CKey.pump1 = some 0
    ∧ (process_control_values
        ((process_control_values cacheUnset serOpen status0 [("pump1", PyVal.int 0)]
          Option.none "t1").previous)
        serOpen status0 [("pump1", PyVal.int 0)] Option.none "t2").command = []
    ∧ (process_control_values
        ((process_control_values cacheUnset serOpen status0 [("pump1", PyVal.int 0)]
          Option.none "t1").previous)
        serOpen status0 [("pump1", PyVal.int 0)] Option.none "t2").sendResult
        = Option.none
    ∧ (process_control_values
        ((process_control_values cacheUnset serOpen status0 [("pump1", PyVal.int 0)]
          Option.none "t1").previous)
        serOpen status0 [("pump1", PyVal.int 0)] Option.none "t2").controlUpdate
        = Option.none :=
  ⟨rfl, rfl, rfl, rfl, rfl⟩

/-- C4: a command map whose every key is unrecognized (which covers the
empty map) makes `send_command_to_arduino` return failure with the serial
state (pending input and write log) and the device status both unchanged —
the rejection happens before any stream access. -/
theorem c4_command_rejection (ser : SerialState) (st : Status)
    (command : List (String × PyVal)) (resp : Option Frame)
    (h : ∀ e ∈ command, e.1 ∉ recognizedKeys) :
    send_command_to_arduino ser st command resp = (false, ser, st) := by
  unfold send_command_to_arduino
  by_cases hop : ser.isOpen = false
  · rw [if_pos hop]
  · rw [if_neg hop, filterMap_unrecognized_nil command h, if_pos rfl]

/-- C4 witness: the concrete all-unrecognized command of the spec. -/
theorem c4_command_rejection_witness :
    send_command_to_arduino serOpen status0 [("foo", PyVal.int 1)] Option.none
      = (false, serOpen, status0) :=
  c4_command_rejection serOpen status0 [("foo", PyVal.int 1)] Option.none (by decide)

/-- C5: merging a frame that carries `ph` and no other recognized key
(unrecognized keys may be present and are ignored) updates exactly the
`ph` field of the status and succeeds. -/
theorem c5_partial_update (st : Status) (data : Frame) (v : PyVal)
    (hph : List.lookup "ph" data = some v)
    (h1 : List.lookup "turbidity" data = Option.none)
    (h2 : List.lookup "tds" data = Option.none)
    (h3 : List.lookup "pumps" data = Option.none)
    (h4 : List.lookup "pump1" data = Option.none)
    (h5 : List.lookup "pump2" data = Option.none)
    (h6 : List.lookup "servo" data = Option.none)
    (h7 : List.lookup "system" data = Option.none) :
    update_status st data = ({ st with ph := v }, true) := by
  simp only [update_status, update_status_pump1, update_status_pump2,
    update_status_done, applyField, hph, h1, h2, h3, h4, h5, h6, h7]

/-- C5 witness: the spec's frame with only `ph` (plus an ignored
unrecognized key). -/
theorem c5_partial_update_witness :
    update_status status0 [("ph", PyVal.str "7.1"), ("foo", PyVal.int 1)]
      = ({ status0 with ph := PyVal.str "7.1" }, true) :=
  c5_partial_update status0 [("ph", PyVal.str "7.1"), ("foo", PyVal.int 1)]
    (PyVal.str "7.1") rfl rfl rfl rfl rfl rfl rfl rfl

/-- `reconCoerce` only ever produces 0 or 1. -/
theorem reconCoerce_range (v : PyVal) (n : Int) (h : reconCoerce v = some n) :
    n = 0 ∨ n = 1 := by
  cases v with
  | none_ =>
    simp [reconCoerce] at h
    exact Or.inl h.symm
  | int m =>
    simp [reconCoerce, pyInt] at h
    by_cases hm : m = 0
    · rw [if_pos hm] at h; exact Or.inl h.symm
    · rw [if_neg hm] at h; exact Or.inr h.symm
  | bool b =>
    cases b <;> simp [reconCoerce, pyInt] at h <;> [exact Or.inl h.symm; exact Or.inr h.symm]
  | str s =>
    cases hs : pyStrToInt s with
    | none => simp [reconCoerce, pyInt, hs] at h
    | some m =>
      simp [reconCoerce, pyInt, hs] at h
      by_cases hm : m = 0
      · rw [if_pos hm] at h; exact Or.inl h.symm
      · rw [if_neg hm] at h; exact Or.inr h.symm
  | list l => simp [reconCoerce, pyInt] at h

/-- C7 counterexample: at the truthy, nonzero-looking string `"0"` the
Command Channel coercion (`1 if v else 0`, truthiness) yields 1 while the
Reconciler coercion (`1 if int(v) else 0`) yields 0, and at the truthy list
`[1]` the Reconciler coercion raises (`int()` TypeError) — so the claim
that both coercions yield 1 on every truthy/nonzero input is false. -/
theorem c7_counterexample :
    (PyVal.str "0").truthy = true
    ∧ coerce01 (PyVal.str "0") = 1
    ∧ reconCoerce (PyVal.str "0") = some 0
    ∧ (PyVal.list [PyVal.int 1]).truthy = true
    ∧ reconCoerce (PyVal.list [PyVal.int 1]) = Option.none :=
  ⟨rfl, rfl, rfl, rfl, rfl⟩

/-- C7 (amended): the Command Channel coercion yields 1 exactly on truthy
values and is idempotent; the Reconciler coercion instead yields 1 exactly
when `int(v)` is nonzero (so 0 at the truthy string `"0"`), maps `None` to
0, raises exactly where `int()` raises, and re-coercing any value it
produces is the identity. -/
theorem c7_coercion_law (v : PyVal) (k n : Int) :
    (coerce01 v = 1 ↔ v.truthy = true)
    ∧ coerce01 (PyVal.int (coerce01 v)) = coerce01 v
    ∧ (pyInt v = some k → reconCoerce v = some (if k = 0 then 0 else 1))
    ∧ (pyInt v = Option.none → v ≠ PyVal.none_ → reconCoerce v = Option.none)
    ∧ reconCoerce PyVal.none_ = some 0
    ∧ (reconCoerce v = some n → reconCoerce (PyVal.int n) = some n) := by
  refine ⟨?_, ?_, ?_, ?_, rfl, ?_⟩
  · by_cases ht : v.truthy = true <;> simp [coerce01, ht]
  · by_cases ht : v.truthy = true
    · have h1 : coerce01 v = 1 := by simp [coerce01, ht]
      rw [h1]; rfl
    · have h0 : coerce01 v = 0 := by simp [coerce01, ht]
      rw [h0]; rfl
  · intro h
    cases v with
    | none_ => exact absurd h (by simp [pyInt])
    | int m =>
      simp [pyInt] at h
      simp [reconCoerce, pyInt, h]
    | bool b =>
      cases b <;> simp [pyInt] at h <;> simp [reconCoerce, pyInt, ← h]
    | str s =>
      simp [pyInt] at h
      simp [reconCoerce, pyInt, h]
    | list l => exact absurd h (by simp [pyInt])
  · intro h hne
    cases v with
    | none_ => exact absurd rfl hne
    | int m => simp [pyInt] at h
    | bool b => simp [pyInt] at h
    | str s =>
      simp [pyInt] at h
      simp [reconCoerce, pyInt, h]
    | list l => rfl
  · intro h
    rcases reconCoerce_range v n h with h0 | h1
    · rw [h0]; rfl
    · rw [h1]; rfl

/-- C7 witness: the Reconciler coercion at the string `"0"` — `int("0")`
succeeds with 0, so the coerced value is 0 despite the string being
truthy. -/
theorem c7_coercion_law_witness :
    reconCoerce (PyVal.str "0") = some (if (0 : Int) = 0 then 0 else 1) :=
  (c7_coercion_law (PyVal.str "0") 0 0).2.2.1 rfl

/-- C10: `update_status` stores an incoming `pumps` value verbatim (no
coercion, type check or length check), and once the stored value is not a
list of length at least two — e.g. the integer 5 or the one-element list
`[1]` — both later pump-slot readers, the per-second states display
(line 528) and the periodic control mirror (lines 536-543), raise instead
of producing two pump states. -/
theorem c10_pumps_verbatim_unsafe (st : Status) (v : PyVal) (now : String) :
    update_status st [("pumps", v)] = ({ st with pumps := v }, true)
    ∧ statesDisplay { st with pumps := PyVal.int 5 } = Option.none
    ∧ controlMirror { st with pumps := PyVal.int 5 } now = Option.none
    ∧ statesDisplay { st with pumps := PyVal.list [PyVal.int 1] } = Option.none
    ∧ controlMirror { st with pumps := PyVal.list [PyVal.int 1] } now = Option.none :=
  ⟨rfl, rfl, rfl, rfl, rfl⟩

/-- C8: (i) the reset guard fires only when the serial-error counter exceeds
100 and at least 60 time units have elapsed since the last reset; (ii) a run
of consecutive failing reads — however many — at times all within 60 units
of the last reset never fires a reset and never moves the reset timestamp. -/
theorem c8_reset_cooldown :
    (∀ (e : Nat) (t lr : Int), reset_check e t lr = true → 100 < e ∧ 60 ≤ t - lr)
    ∧ (∀ (s : MainState) (times : List Int),
        (∀ t ∈ times, t - s.lastResetTime ≤ 60) →
        (run_failures s times).resets = s.resets
        ∧ (run_failures s times).lastResetTime = s.lastResetTime) := by
  constructor
  · intro e t lr h
    unfold reset_check at h
    rw [Bool.and_eq_true, decide_eq_true_iff, decide_eq_true_iff] at h
    exact ⟨h.1, le_of_lt h.2⟩
  · intro s times
    induction times generalizing s with
    | nil => intro _; exact ⟨rfl, rfl⟩
    | cons t ts ih =>
      intro h
      have ht : t - s.lastResetTime ≤ 60 := h t (List.mem_cons_self t ts)
      have hchk : reset_check s.serialErrors t s.lastResetTime = false := by
        unfold reset_check
        rw [decide_eq_false (not_lt.mpr ht)]
        exact Bool.and_false _
      have hstep : main_iteration s t true true =
          { s with serialErrors := s.serialErrors + 1 } := by
        unfold main_iteration
        rw [hchk]
        rfl
      have hrun : run_failures s (t :: ts) =
          run_failures { s with serialErrors := s.serialErrors + 1 } ts := by
        unfold run_failures
        rw [List.foldl_cons, hstep]
      rw [hrun]
      exact ih { s with serialErrors := s.serialErrors + 1 }
        (fun t' ht' => h t' (List.mem_cons_of_mem t ht'))

/-- C8 witness: 150 consecutive failing reads at time 5, ten units after a
reset at time 0, fire no second reset; and a firing at time 70 with 150
errors satisfies both threshold conditions. -/
theorem c8_reset_cooldown_witness :
    (100 < 150 ∧ (60 : Int) ≤ 70 - 0)
    ∧ (run_failures ⟨0, 0, 1⟩ (List.replicate 150 5)).resets = 1 := by
  constructor
  · exact c8_reset_cooldown.1 150 70 0 (by decide)
  · exact (c8_reset_cooldown.2 ⟨0, 0, 1⟩ (List.replicate 150 5)
      (by
        intro t htm
        rw [List.eq_of_mem_replicate htm]
        decide)).1

/-- Entries appended to the command by one per-key Reconciler step carry
that step's key. -/
theorem pcvStep_cmd_keys (doc : List (String × PyVal))
    (acc : ControlCache × List (CKey × Int)) (k : CKey) (e : CKey × Int)
    (he : e ∈ (pcvStep doc acc k).2) :
    e ∈ acc.2 ∨ e.1 = k := by
  unfold pcvStep at he
  split at he
  · exact Or.inl he
  · split at he
    · split at he
      · rcases List.mem_append.mp he with hm | hm
        · exact Or.inl hm
        · rw [List.mem_singleton] at hm
          rw [hm]
          exact Or.inr rfl
      · exact Or.inl he
    · exact Or.inl he

/-- One per-key Reconciler step never changes the cache at a different key. -/
theorem pcvStep_cache_ne (doc : List (String × PyVal))
    (acc : ControlCache × List (CKey × Int)) (k k' : CKey) (hne : k' ≠ k) :
    (pcvStep doc acc k).1 k' = acc.1 k' := by
  unfold pcvStep
  split
  · rfl
  · split
    · split
      · simp [updCache, hne]
      · rfl
    · by_cases h0 : acc.1 k = Option.none
      · simp [h0, updCache, hne]
      · simp [h0]

/-- A key whose coerced document value equals the cached last-forwarded
value is a no-op for its own per-key Reconciler step. -/
theorem pcvStep_unchanged (doc : List (String × PyVal))
    (acc : ControlCache × List (CKey × Int)) (k : CKey) (w : PyVal) (v : Int)
    (hl : List.lookup k.name doc = some w) (hc : reconCoerce w = some v)
    (hk : acc.1 k = some v) :
    pcvStep doc acc k = acc := by
  simp only [pcvStep, hl, hc, hk]
  simp

/-- Folding the per-key step over any key list never adds a command entry
for a key whose coerced document value equals its cached value. -/
theorem pcvFold_excluded (doc : List (String × PyVal)) (k : CKey) (w : PyVal)
    (v : Int) (hl : List.lookup k.name doc = some w)
    (hc : reconCoerce w = some v) :
    ∀ (ks : List CKey) (prev : ControlCache) (cmd : List (CKey × Int)),
      prev k = some v → (∀ e ∈ cmd, e.1 ≠ k) →
      ∀ u, (k, u) ∉ (ks.foldl (pcvStep doc) (prev, cmd)).2 := by
  intro ks
  induction ks with
  | nil =>
    intro prev cmd hpk hcmd u hmem
    exact hcmd _ hmem rfl
  | cons k0 ks ih =>
    intro prev cmd hpk hcmd u hmem
    rw [List.foldl_cons] at hmem
    by_cases hk0 : k0 = k
    · rw [hk0, pcvStep_unchanged doc (prev, cmd) k w v hl hc hpk] at hmem
      exact ih prev cmd hpk hcmd u hmem
    · have hpk' : (pcvStep doc (prev, cmd) k0).1 k = some v := by
        rw [pcvStep_cache_ne doc (prev, cmd) k0 k (fun hx => hk0 hx.symm)]
        exact hpk
      have hcmd' : ∀ e ∈ (pcvStep doc (prev, cmd) k0).2, e.1 ≠ k := by
        intro e he
        rcases pcvStep_cmd_keys doc (prev, cmd) k0 e he with hm | hm
        · exact hcmd e hm
        · rw [hm]; exact hk0
      have := ih (pcvStep doc (prev, cmd) k0).1 (pcvStep doc (prev, cmd) k0).2
        hpk' hcmd' u
      rw [Prod.mk.eta] at this
      exact this hmem

/-- The Reconciler's forwarded command is the fold of the per-key steps,
in both the empty and the non-empty branch. -/
theorem process_command_eq (prev : ControlCache) (ser : SerialState) (st : Status)
    (doc : List (String × PyVal)) (resp : Option Frame) (now : String) :
    (process_control_values prev ser st doc resp now).command
      = (controlKeys.foldl (pcvStep doc) (prev, [])).2 := by
  simp only [process_control_values]
  split
  · rfl
  · split <;> rfl

/-- C2: with last-forwarded cache all 0 and remote document
`pump1 = 1, pump2 = 0, servo = 0, system = 0`, the Reconciler forwards
exactly the single-key command `pump1 := 1`; and in any cycle, a key whose
coerced document value equals the last-forwarded cached value is never
included in the forwarded command. -/
theorem c2_delta_only :
    ((process_control_values cacheZero serOpen status0 docDelta Option.none "t").command
      = [(CKey.pump1, 1)])
    ∧ (∀ (prev : ControlCache) (ser : SerialState) (st : Status)
        (doc : List (String × PyVal)) (resp : Option Frame) (now : String)
        (k : CKey) (w : PyVal) (v : Int),
        List.lookup k.name doc = some w → reconCoerce w = some v →
        prev k = some v →
        ∀ u, (k, u) ∉ (process_control_values prev ser st doc resp now).command) := by
  constructor
  · rfl
  · intro prev ser st doc resp now k w v hl hc hpk u hmem
    rw [process_command_eq] at hmem
    exact pcvFold_excluded doc k w v hl hc controlKeys prev []
      hpk (fun e he => absurd he (List.not_mem_nil e)) u hmem

/-- C2 witness: in the delta example, the unchanged key `pump2` is not part
of the forwarded command. -/
theorem c2_delta_only_witness :
    (CKey.pump2, 0) ∉ (process_control_values cacheZero serOpen status0 docDelta
      Option.none "t").command :=
  c2_delta_only.2 cacheZero serOpen status0 docDelta Option.none "t"
    CKey.pump2 (PyVal.int 0) 0 rfl rfl rfl 0

/-- The tail of the status merge (`servo`, `system`) never touches the
pumps field and always succeeds. -/
theorem update_status_done_pumps (s : Status) (data : Frame) :
    (update_status_done s data).1.pumps = s.pumps
    ∧ (update_status_done s data).2 = true := by
  unfold update_status_done
  constructor
  · cases List.lookup "servo" data <;> cases List.lookup "system" data <;>
      simp [applyField]
  · cases List.lookup "servo" data <;> cases List.lookup "system" data <;>
      simp [applyField]

/-- From the pump1 step on, with a stored pumps list of length at least two
and both individual keys present, the merge overwrites slot 0 with the
coerced `pump1` and slot 1 with the coerced `pump2`, and succeeds. -/
theorem update_status_pumps_over (s : Status) (data : Frame) (l : List PyVal)
    (v1 v2 : PyVal) (hsp : s.pumps = PyVal.list l)
    (h1 : List.lookup "pump1" data = some v1)
    (h2 : List.lookup "pump2" data = some v2)
    (hlen : 2 ≤ l.length) :
    (update_status_pump1 s data).1.pumps
      = PyVal.list ((l.set 0 (PyVal.int (coerce01 v1))).set 1 (PyVal.int (coerce01 v2)))
    ∧ (update_status_pump1 s data).2 = true := by
  have h0 : 0 < l.length := by omega
  have h1l : 1 < (l.set 0 (PyVal.int (coerce01 v1))).length := by
    rw [List.length_set]; omega
  simp only [update_status_pump1, h1, hsp, setPumpSlot]
  rw [if_pos h0]
  simp only [update_status_pump2, h2, setPumpSlot]
  rw [if_pos h1l]
  exact update_status_done_pumps _ data

/-- C9: a frame carrying a `pumps` list (of length at least two) together
with individual `pump1` and `pump2` keys merges deterministically: the
array is stored first and the individual keys then overwrite slots 0 and 1
with their coerced 0/1 values, so the individual fields take precedence;
the merge succeeds. -/
theorem c9_pump_precedence (st : Status) (data : Frame) (l : List PyVal)
    (v1 v2 : PyVal)
    (hps : List.lookup "pumps" data = some (PyVal.list l))
    (h1 : List.lookup "pump1" data = some v1)
    (h2 : List.lookup "pump2" data = some v2)
    (hlen : 2 ≤ l.length) :
    (update_status st data).1.pumps
      = PyVal.list ((l.set 0 (PyVal.int (coerce01 v1))).set 1 (PyVal.int (coerce01 v2)))
    ∧ (update_status st data).2 = true := by
  have hdef : update_status st data =
      update_status_pump1
        (applyField
          (applyField
            (applyField
              (applyField st (List.lookup "ph" data) (fun s v => { s with ph := v }))
              (List.lookup "turbidity" data) (fun s v => { s with turbidity := v }))
            (List.lookup "tds" data) (fun s v => { s with tds := v }))
          (List.lookup "pumps" data) (fun s v => { s with pumps := v })) data := rfl
  rw [hdef]
  apply update_status_pumps_over _ data l v1 v2 _ h1 h2 hlen
  rw [hps]
  rfl

/-- C9 witness: the conflicting frame
`pumps = [1, 0], pump1 = 0, pump2 = 1` resolves to pump slots `[0, 1]` —
the individual keys win. -/
theorem c9_pump_precedence_witness :
    (update_status status0
      [("pumps", PyVal.list [PyVal.int 1, PyVal.int 0]),
       ("pump1", PyVal.int 0), ("pump2", PyVal.int 1)]).1.pumps
      = PyVal.list [PyVal.int 0, PyVal.int 1]
    ∧ (update_status status0
      [("pumps", PyVal.list [PyVal.int 1, PyVal.int 0]),
       ("pump1", PyVal.int 0), ("pump2", PyVal.int 1)]).2 = true := by
  have h := c9_pump_precedence status0
    [("pumps", PyVal.list [PyVal.int 1, PyVal.int 0]),
     ("pump1", PyVal.int 0), ("pump2", PyVal.int 1)]
    [PyVal.int 1, PyVal.int 0] (PyVal.int 0) (PyVal.int 1)
    rfl rfl rfl (by decide)
  exact ⟨h.1.trans rfl, h.2⟩

/-- A run of open braces contains no close brace. -/
theorem pyFindIdx_replicate_no_close (n : Nat) :
    pyFindIdx (List.replicate n '{') '}' = Option.none := by
  induction n with
  | zero => rfl
  | succ m ih =>
    rw [List.replicate_succ]
    unfold pyFindIdx
    rw [if_neg (by decide), ih]
    rfl

/-- On a buffer whose only close brace precedes its first open brace, the
extraction loop makes no progress: `find` of the close brace from the open
brace returns -1, the end index becomes 0, the candidate slice is empty and
the buffer is left unchanged — so the loop runs forever (exhausts any
fuel). -/
theorem decode_loop_stuck (parse : List Char → Option Frame) (fuel : Nat) :
    ∀ (n errs : Nat) (st : Status),
      decode_loop parse fuel (stuckBuf n) errs st = Option.none := by
  induction fuel with
  | zero => intro n errs st; rfl
  | succ f ih =>
    intro n errs st
    have hmem : ('{' ∈ stuckBuf n) ∧ ('}' ∈ stuckBuf n) := by
      constructor
      · simp [stuckBuf]
      · simp [stuckBuf]
    have hstart : pyFindIdx (stuckBuf n) '{' = some 4 := rfl
    have hfrom : pyFindFrom (stuckBuf n) '}' 4 = Option.none := by
      unfold pyFindFrom
      have hdrop : (stuckBuf n).drop 4 = '{' :: List.replicate n '{' := rfl
      rw [hdrop]
      unfold pyFindIdx
      rw [if_neg (by decide), pyFindIdx_replicate_no_close n]
      rfl
    simp only [decode_loop, hmem.1, hmem.2, and_self, if_true, hstart,
      Option.getD_some, hfrom]
    simp only [List.take_zero, List.drop_nil, List.drop_zero, List.length_nil]
    rw [if_pos (Or.inl (by decide))]
    exact ih n errs st

/-- `rfind` of the replicated character in a run of `n + 1` copies is the
last index `n`. -/
theorem pyRfindIdx_replicate (n : Nat) (c : Char) :
    pyRfindIdx (List.replicate (n + 1) c) c = some n := by
  induction n with
  | zero =>
    rw [List.replicate_succ]
    unfold pyRfindIdx
    simp [pyRfindIdx, List.replicate]
  | succ m ih =>
    rw [List.replicate_succ]
    unfold pyRfindIdx
    rw [ih]

/-- Dropping all but one element of a replicated run leaves the singleton. -/
theorem drop_replicate_last (n : Nat) (c : Char) :
    (List.replicate (n + 1) c).drop n = [c] := by
  induction n with
  | zero => rfl
  | succ m ih =>
    rw [List.replicate_succ, List.drop_succ_cons]
    exact ih

/-- On an empty prior buffer, any oversize all-open-brace chunk
(length over 100) is truncated by the early-return branch to the single
final open brace. -/
theorem read_chunk_empty_prior (parse : List Char → Option Frame) (fuel : Nat)
    (st : Status) (n : Nat) :
    read_chunk parse fuel ⟨[], 0⟩ st (List.replicate (n + 101) '{')
      = some (⟨['{'], 0⟩, st) := by
  simp only [read_chunk, List.nil_append]
  have hmem : '{' ∈ List.replicate (n + 101) '{' :=
    List.mem_replicate.mpr ⟨by omega, rfl⟩
  have hnot : '}' ∉ List.replicate (n + 101) '{' := by
    intro h
    exact absurd (List.eq_of_mem_replicate h) (by decide)
  have hlen : 100 < (List.replicate (n + 101) '{').length := by
    rw [List.length_replicate]
    omega
  rw [if_pos ⟨hmem, hnot, hlen⟩]
  have htr : truncToLastOpen (List.replicate (n + 101) '{') = ['{'] := by
    unfold truncToLastOpen
    have h1 : pyRfindIdx (List.replicate (n + 101) '{') '{' = some (n + 100) :=
      pyRfindIdx_replicate (n + 100) '{'
    rw [h1]
    exact drop_replicate_last (n + 100) '{'
  rw [htr]
  rw [if_neg (by decide)]

/-- C6 at the failing input: a decoder whose persistent buffer holds the
stray tail `abc\x7d` (reachable: it is what a chunk without an open brace
leaves behind) receives 10,000 bytes of `\x7b`. For every fuel the embedded
read step returns `Option.none`: the Python `while` loop never terminates,
so the buffer is never truncated or cleared and retains its 10,004
characters — the claimed bound fails. On an empty prior buffer the claim's
scenario does hold: the same 10,000-byte chunk leaves the buffer truncated
to the single final open brace. -/
theorem c6_buffer_bound_bug (parse : List Char → Option Frame) (fuel : Nat)
    (st : Status) :
    read_chunk parse fuel ⟨strayCloseBuf, 0⟩ st (List.replicate 10000 '{')
        = Option.none
    ∧ read_chunk parse fuel ⟨[], 0⟩ st (List.replicate 10000 '{')
        = some (⟨['{'], 0⟩, st) := by
  constructor
  · have hbuf : strayCloseBuf ++ List.replicate 10000 '{' = stuckBuf 9999 := rfl
    simp only [read_chunk, hbuf]
    have hin : '}' ∈ stuckBuf 9999 := by
      unfold stuckBuf
      exact List.mem_cons_of_mem _ (List.mem_cons_of_mem _ (List.mem_cons_of_mem _
        (List.mem_cons_self _ _)))
    have hcond : ¬ (('{' ∈ stuckBuf 9999) ∧ ('}' ∉ stuckBuf 9999)
        ∧ 100 < (stuckBuf 9999).length) := by
      intro h
      exact h.2.1 hin
    rw [if_neg hcond, decode_loop_stuck parse fuel 9999 0 st]
  · exact read_chunk_empty_prior parse fuel st 9899

